import Mathlib

/-!
Verification development for the SPF record checker (SPFChecker component).

The definitions below are a shallow embedding of the JavaScript source:
`calculateIPv4Count`, `resolveSPFRecord`, `parseSPFTree` and the aggregation
part of `checkSPF`.  The DNS-over-HTTPS fetch is modelled as an oracle
`Oracle : String → FetchOutcome`; JavaScript `NaN` propagation in the IPv4
address arithmetic is modelled with `Option`; the mutable shared context
object is threaded explicitly, extended with a ghost `queries` trace that
records each domain for which a DNS fetch is actually issued.  String
primitives (`includes`, `trim`, `startsWith`, `toLowerCase`, `split`, …) are
modelled on the character list so that every definition evaluates inside the
kernel.
-/

/-- JS `a.includes(b)` on strings: `pat` occurs as a contiguous substring. -/
def containsSub (p : List Char) : List Char → Bool
  | [] => p.isPrefixOf []
  | c :: rest => p.isPrefixOf (c :: rest) || containsSub p rest

/-- JS `s.includes(pat)`. -/
def jsIncludes (s pat : String) : Bool := containsSub pat.toList s.toList

/-- JS replace of every double-quote character by the empty string. -/
def stripQuotes (s : String) : String := String.mk (s.toList.filter (fun c => c != '\x22'))

/-- JS `s.trim()`: remove leading and trailing whitespace. -/
def jsTrim (s : String) : String :=
  String.mk (((s.toList.dropWhile Char.isWhitespace).reverse.dropWhile Char.isWhitespace).reverse)

/-- JS `s.startsWith(pre)`. -/
def jsStartsWith (s pre : String) : Bool := pre.toList.isPrefixOf s.toList

/-- JS `s.substring(n)` / dropping a matched ASCII prefix of length `n`. -/
def jsDrop (s : String) (n : Nat) : String := String.mk (s.toList.drop n)

/-- JS `s.toLowerCase()` (ASCII, which is all the `/i` regexes need). -/
def jsToLower (s : String) : String := String.mk (s.toList.map Char.toLower)

/-- JS `s.charAt(i)`: one-character string, or `""` past the end. -/
def jsCharAt (s : String) (i : Nat) : String :=
  match s.toList[i]? with
  | some c => String.mk [c]
  | none => ""

/-- Split at every character satisfying `p`, keeping empty pieces — the
shared semantics of JS `String.prototype.split` with a single-character
separator and of the Lean `String.split`. -/
def splitCharAux (p : Char → Bool) (cur : List Char) : List Char → List String
  | [] => [String.mk cur.reverse]
  | c :: rest =>
    if p c then String.mk cur.reverse :: splitCharAux p [] rest
    else splitCharAux p (c :: cur) rest

def splitOnChar (p : Char → Bool) (s : String) : List String := splitCharAux p [] s.toList

/-- Helper for `jsSetList`: keep elements not seen before, in order. -/
def uniqAux (seen : List String) : List String → List String
  | [] => []
  | x :: rest => if seen.contains x then uniqAux seen rest else x :: uniqAux (seen ++ [x]) rest

/-- JS `[...new Set(l)]`: de-duplicate keeping first occurrences in order. -/
def jsSetList (l : List String) : List String := uniqAux [] l

/-- Numeric value of a list of decimal digit characters. -/
def digitsVal (l : List Char) : Nat := l.foldl (fun acc c => acc * 10 + (c.toNat - 48)) 0

/-- JS `parseInt` restricted to the non-negative decimal case: value of the
leading run of digits, `none` (modelling `NaN`) if there is none. -/
def jsParseIntNat (s : String) : Option Nat :=
  let ds := s.toList.takeWhile Char.isDigit
  if ds.isEmpty then none else some (digitsVal ds)

/-- JS `Math.pow(2, e)` for an integer exponent, as a rational. -/
def jsPow2 (e : Int) : ℚ :=
  if 0 ≤ e then ((2 ^ e.toNat : Nat) : ℚ) else 1 / ((2 ^ (-e).toNat : Nat) : ℚ)

/-- Source `calculateIPv4Count`: `cidr.split('/')`, prefix length from the
second component (`32` when absent or empty, both falsy in JS), then
`Math.pow(2, 32 - prefixLength)`.  `none` models the `NaN` produced when the
suffix does not start with a digit. -/
def calculateIPv4Count (cidr : String) : Option ℚ :=
  let bits := ((splitOnChar (fun c => c == '/') cidr)[1]?).getD ""
  if bits == "" then some (jsPow2 (32 - 32))
  else (jsParseIntNat bits).map (fun pl => jsPow2 (32 - (pl : Int)))

/-- One entry of the DoH JSON `Answer` array (`data` may be absent). -/
structure TxtAnswer where
  data : Option String
deriving DecidableEq

/-- Outcome of the `fetch` to the DNS-over-HTTPS endpoint: HTTP failure
(`!response.ok`), a thrown exception, or a JSON body with its RCODE `Status`
and optional `Answer` array. -/
inductive FetchOutcome where
  | notOk : FetchOutcome
  | exn : FetchOutcome
  | ok : Nat → Option (List TxtAnswer) → FetchOutcome
deriving DecidableEq

/-- A deterministic DNS oracle standing in for the network. -/
abbrev Oracle := String → FetchOutcome

/-- Return value of `resolveSPFRecord` (`records` is only populated in the
multiple-SPF case, mirroring the source). -/
structure ResolveResult where
  record : Option String
  error : Option String
  isVoid : Bool
  records : List String
deriving DecidableEq

/-- The source filter selecting SPF records from the answers:
the entry has data containing the literal `v=spf1` (quoted or not). -/
def spfFilter (answers : List TxtAnswer) : List TxtAnswer :=
  answers.filter (fun a =>
    match a.data with
    | none => false
    | some s => s != "" && (jsIncludes s "v=spf1" || jsIncludes s "\x22v=spf1"))

/-- Source `resolveSPFRecord`: classify the TXT lookup for `domain`. -/
def resolveSPFRecord (oracle : Oracle) (domain : String) (depth : Nat)
    (visited : List String) : ResolveResult :=
  if depth > 10 ∨ visited.contains domain then
    { record := none, error := some "max-depth", isVoid := false, records := [] }
  else
    match oracle domain with
    | .notOk => { record := none, error := some "network", isVoid := false, records := [] }
    | .exn => { record := none, error := some "exception", isVoid := false, records := [] }
    | .ok status answer =>
      if status == 3 then
        { record := none, error := some "nxdomain", isVoid := true, records := [] }
      else if status == 2 then
        { record := none, error := some "servfail", isVoid := false, records := [] }
      else if status != 0 || answer.isNone || (answer.getD []).isEmpty then
        { record := none, error := some "no-answer", isVoid := true, records := [] }
      else
        match spfFilter (answer.getD []) with
        | [] => { record := none, error := some "no-spf", isVoid := false, records := [] }
        | [a] => { record := some (jsTrim (stripQuotes (a.data.getD ""))), error := none,
                   isVoid := false, records := [] }
        | l => { record := none, error := some "multiple-spf", isVoid := false,
                 records := l.map (fun a => jsTrim (stripQuotes (a.data.getD ""))) }

/-- The shared resolution context (`{ voidLookups, warnings, errors }` in the
source), plus a ghost `queries` trace recording each issued DNS fetch. -/
structure Context where
  voidLookups : Nat
  warnings : List String
  errors : List String
  queries : List String
deriving DecidableEq

def pushError (ctx : Context) (msg : String) : Context :=
  { ctx with errors := ctx.errors ++ [msg] }

def pushWarning (ctx : Context) (msg : String) : Context :=
  { ctx with warnings := ctx.warnings ++ [msg] }

/- The diagnostic strings of the source, verbatim. -/

def depthCycleMsg (domain : String) : String :=
  "최대 깊이 초과 또는 순환 참조 감지: " ++ domain

def voidLimitMsg (n : Nat) (domain : String) : String :=
  "Void lookup 제한 초과 (" ++ toString n ++ "/2): " ++ domain

def multipleSpfMsg (domain : String) : String :=
  "PermError: 도메인 " ++ domain ++
    "에 여러 개의 SPF 레코드가 존재합니다. RFC 7208에 따라 하나의 레코드만 허용됩니다."

def nxdomainMsg (domain : String) : String :=
  "도메인 " ++ domain ++ "이 존재하지 않습니다 (NXDOMAIN)"

def noSpfMsg (domain : String) : String :=
  "도메인 " ++ domain ++ "에 SPF 레코드가 없습니다"

def badStartMsg (domain : String) : String :=
  "잘못된 SPF 레코드 형식: v=spf1로 시작해야 합니다 (도메인: " ++ domain ++ ")"

def tooLongErrMsg (len : Nat) (domain : String) : String :=
  "레코드 길이 초과: " ++ toString len ++ " 옥텟 (512 옥텟 이하 권장, 도메인: " ++ domain ++ ")"

def longWarnMsg (len : Nat) (domain : String) : String :=
  "레코드 길이 주의: " ++ toString len ++
    " 옥텟 (450 옥텟 이하 권장, UDP 호환성, 도메인: " ++ domain ++ ")"

def afterAllMsg (tok domain : String) : String :=
  "\x27all\x27 메커니즘 이후의 메커니즘은 무시됩니다: " ++ tok ++ " (도메인: " ++ domain ++ ")"

def redirectIgnoredMsg (domain : String) : String :=
  "redirect는 \x27all\x27 메커니즘이 있을 때 무시됩니다 (도메인: " ++ domain ++ ")"

def ptrWarnMsg (domain : String) : String :=
  "PTR 메커니즘은 성능과 신뢰성 문제로 인해 RFC 7208에서 사용을 권장하지 않습니다 (도메인: " ++
    domain ++ ")"

def mxWarnMsg (domain : String) : String :=
  "MX 메커니즘은 추가 DNS 조회가 필요합니다. 각 MX 레코드는 최대 10개의 A/AAAA 레코드를 조회할 수 있습니다 (도메인: " ++
    domain ++ ")"

def unknownMechMsg (tok domain : String) : String :=
  "알 수 없는 메커니즘 또는 수정자: " ++ tok ++ " (도메인: " ++ domain ++ ")"

/-- The void-lookup bookkeeping of `parseSPFTree` (lines 83-88 of the source):
on a void result increment the counter and, when it exceeds 2, append an
error naming the current count. -/
def applyVoidCheck (ctx : Context) (domain : String) (isVoid : Bool) : Context :=
  if isVoid then
    let c := { ctx with voidLookups := ctx.voidLookups + 1 }
    if c.voidLookups > 2 then pushError c (voidLimitMsg c.voidLookups domain) else c
  else ctx

/-- A child entry of a tree node, one constructor per `type` tag pushed into
`children` by the source (`include`, `redirect`, `ip4`, `ip6`, `ptr`, `a`,
`mx`, `exists`, `all`). -/
inductive Child where
  | inc (mechanism domain record : String) (children : List Child) (dnsLookups : Nat)
      (netblocks : List String) (qualifier : String)
  | redir (mechanism domain record : String) (children : List Child) (dnsLookups : Nat)
      (netblocks : List String)
  | ip4 (mechanism value : String) (count : Option ℚ)
  | ip6 (mechanism value : String)
  | ptr (mechanism : String) (dnsLookups : Nat)
  | aMech (mechanism : String) (dnsLookups : Nat)
  | mx (mechanism : String) (dnsLookups : Nat)
  | existsMech (mechanism : String) (dnsLookups : Nat)
  | all (mechanism qualifier : String) (position : Nat)

/-- The `type` tag of a child, as in the source objects. -/
def childKind : Child → String
  | .inc .. => "include"
  | .redir .. => "redirect"
  | .ip4 .. => "ip4"
  | .ip6 .. => "ip6"
  | .ptr .. => "ptr"
  | .aMech .. => "a"
  | .mx .. => "mx"
  | .existsMech .. => "exists"
  | .all .. => "all"

/-- Netblocks contributed by one child: an `ip4` child contributes its CIDR,
`include`/`redirect` children contribute their stored subtree netblocks. -/
def childNetblocks : Child → List String
  | .inc _ _ _ _ _ nbs _ => nbs
  | .redir _ _ _ _ _ nbs => nbs
  | .ip4 _ v _ => [v]
  | _ => []

def collectNetblocks (cs : List Child) : List String := (cs.map childNetblocks).flatten

/-- The object returned by `parseSPFTree` on success. -/
structure Node where
  domain : String
  record : String
  children : List Child
  dnsLookups : Nat
  netblocks : List String
  warnings : List String
  errors : List String
  voidLookups : Nat

/-- The mutable locals of the mechanism loop (`children`, `dnsLookups`,
`netblocks`, `allFound`, the index `i`) together with the shared context. -/
structure LoopState where
  children : List Child
  dnsLookups : Nat
  netblocks : List String
  allFound : Bool
  idx : Nat
  ctx : Context

def initLoopState (ctx : Context) : LoopState :=
  { children := [], dnsLookups := 0, netblocks := [], allFound := false, idx := 0, ctx := ctx }

/-- Source `getQualifier`: the leading character when it is a qualifier,
plus otherwise. -/
def getQualifier (mech : String) : String :=
  let first := jsCharAt mech 0
  if first == "+" || first == "-" || first == "~" || first == "?" then first else "+"

/-- Display form of a mechanism: the source prepends `+` unless the token
already starts with a qualifier. -/
def displayMech (t : String) : String :=
  if jsStartsWith t "+" || jsCharAt t 0 == "-" || jsCharAt t 0 == "~" || jsCharAt t 0 == "?" then t
  else "+" ++ t

/-- Drop one leading qualifier character, mirroring the optional
`(\+|-|~|\?)?` group of the source regexes. -/
def stripQual (s : String) : String :=
  match s.toList with
  | [] => s
  | c :: rest => if c == '+' || c == '-' || c == '~' || c == '?' then String.mk rest else s

/-- Regex `/^(\+|-|~|\?)?include:/` (case-sensitive). -/
def matchInclude (t : String) : Bool := jsStartsWith (stripQual t) "include:"

/-- Regex `/^(\+|-|~|\?)?ip4:/` (case-sensitive). -/
def matchIp4 (t : String) : Bool := jsStartsWith (stripQual t) "ip4:"

/-- Regex `/^(\+|-|~|\?)?ip6:/` (case-sensitive). -/
def matchIp6 (t : String) : Bool := jsStartsWith (stripQual t) "ip6:"

/-- Regex `/^(\+|-|~|\?)?ptr(:|$)/i` (case-insensitive). -/
def matchPtr (t : String) : Bool :=
  let l := jsToLower (stripQual t)
  l == "ptr" || jsStartsWith l "ptr:"

/-- Regex `/^(\+|-|~|\?)?a(:|\/|$)/i` (case-insensitive). -/
def matchA (t : String) : Bool :=
  let l := jsToLower (stripQual t)
  l == "a" || jsStartsWith l "a:" || jsStartsWith l "a/"

/-- Regex `/^(\+|-|~|\?)?mx(:|\/|$)/i` (case-insensitive). -/
def matchMx (t : String) : Bool :=
  let l := jsToLower (stripQual t)
  l == "mx" || jsStartsWith l "mx:" || jsStartsWith l "mx/"

/-- Regex `/^(\+|-|~|\?)?exists:/i` (case-insensitive). -/
def matchExists (t : String) : Bool := jsStartsWith (jsToLower (stripQual t)) "exists:"

/-- Regex `/^(\+|-|~|\?)?all$/` (case-sensitive, anchored). -/
def matchAll (t : String) : Bool := stripQual t == "all"

/-- The qualifier name stored on an `all` child. -/
def allQualifierName (q : String) : String :=
  if q == "~" then "softfail" else if q == "-" then "fail"
  else if q == "?" then "neutral" else "pass"

/- The mechanism loop of `parseSPFTree` (lines 128-266), one small function
per `if`/`else if` branch of the source so that proofs can reason about one
branch at a time.  In each of them `recur` is the recursive call at
`depth + 1` with the branch-local copy of the visited set already fixed by
the caller, and `trimmed` is `mechanisms[i].trim()`. -/

/-- Branch: a previous `all` was seen — warn and skip (`continue`). -/
def stepAfterAll (domain : String) (st : LoopState) (trimmed : String) : LoopState :=
  { st with
    ctx := pushWarning st.ctx (afterAllMsg trimmed domain)
    idx := st.idx + 1 }

/-- Branch: `include:` — count one lookup, recurse, attach the child node if
the recursion produced one. -/
def stepInclude (recur : String → Context → Option Node × Context)
    (st : LoopState) (trimmed : String) : LoopState :=
  let qualifier := getQualifier trimmed
  let includeDomain := jsDrop (stripQual trimmed) 8
  let dns1 := st.dnsLookups + 1
  match recur includeDomain st.ctx with
  | (some child, ctx') =>
    { st with
      children := st.children ++
        [Child.inc (displayMech trimmed) includeDomain child.record child.children
          (child.dnsLookups + 1) child.netblocks qualifier]
      dnsLookups := dns1 + child.dnsLookups
      netblocks := st.netblocks ++ child.netblocks
      ctx := ctx'
      idx := st.idx + 1 }
  | (none, ctx') =>
    { st with
      dnsLookups := dns1
      ctx := ctx'
      idx := st.idx + 1 }

/-- Branch: `redirect=` — the inner `allFound` test mirrors the unreachable
`if (allFound)` of the source (the loop-level guard has already skipped the
token when `allFound` holds). -/
def stepRedirect (recur : String → Context → Option Node × Context) (domain : String)
    (st : LoopState) (trimmed : String) : LoopState :=
  if st.allFound then
    { st with
      ctx := pushWarning st.ctx (redirectIgnoredMsg domain)
      idx := st.idx + 1 }
  else
    let redirectDomain := jsDrop trimmed 9
    let dns1 := st.dnsLookups + 1
    match recur redirectDomain st.ctx with
    | (some child, ctx') =>
      { st with
        children := st.children ++
          [Child.redir trimmed redirectDomain child.record child.children
            (child.dnsLookups + 1) child.netblocks]
        dnsLookups := dns1 + child.dnsLookups
        netblocks := st.netblocks ++ child.netblocks
        ctx := ctx'
        idx := st.idx + 1 }
    | (none, ctx') =>
      { st with
        dnsLookups := dns1
        ctx := ctx'
        idx := st.idx + 1 }

/-- Branch: `ip4:` — normalize a bare address to `/32` and record the
netblock. -/
def stepIp4 (st : LoopState) (trimmed : String) : LoopState :=
  let ip := jsDrop (stripQual trimmed) 4
  let cidr := if ip.toList.contains '/' then ip else ip ++ "/32"
  { st with
    netblocks := st.netblocks ++ [cidr]
    children := st.children ++
      [Child.ip4 (displayMech trimmed) cidr (calculateIPv4Count cidr)]
    idx := st.idx + 1 }

/-- Branch: `ip6:` — displayed but contributing no netblock. -/
def stepIp6 (st : LoopState) (trimmed : String) : LoopState :=
  let ip := jsDrop (stripQual trimmed) 4
  { st with
    children := st.children ++ [Child.ip6 (displayMech trimmed) ip]
    idx := st.idx + 1 }

/-- Branch: `ptr` — one lookup plus the deprecation warning. -/
def stepPtr (domain : String) (st : LoopState) (trimmed : String) : LoopState :=
  { st with
    dnsLookups := st.dnsLookups + 1
    ctx := pushWarning st.ctx (ptrWarnMsg domain)
    children := st.children ++ [Child.ptr trimmed 1]
    idx := st.idx + 1 }

/-- Branch: `a` — one counted lookup. -/
def stepA (st : LoopState) (trimmed : String) : LoopState :=
  { st with
    dnsLookups := st.dnsLookups + 1
    children := st.children ++ [Child.aMech trimmed 1]
    idx := st.idx + 1 }

/-- Branch: `mx` — one counted lookup plus the amplification warning. -/
def stepMx (domain : String) (st : LoopState) (trimmed : String) : LoopState :=
  { st with
    dnsLookups := st.dnsLookups + 1
    ctx := pushWarning st.ctx (mxWarnMsg domain)
    children := st.children ++ [Child.mx trimmed 1]
    idx := st.idx + 1 }

/-- Branch: `exists:` — one counted lookup. -/
def stepExists (st : LoopState) (trimmed : String) : LoopState :=
  { st with
    dnsLookups := st.dnsLookups + 1
    children := st.children ++ [Child.existsMech trimmed 1]
    idx := st.idx + 1 }

/-- Branch: `all` — set the terminal flag and record the verdict. -/
def stepAll (st : LoopState) (trimmed : String) : LoopState :=
  { st with
    allFound := true
    children := st.children ++
      [Child.all trimmed (allQualifierName (jsCharAt trimmed 0)) st.idx]
    idx := st.idx + 1 }

/-- Branch: unknown mechanism or modifier — warning only. -/
def stepUnknown (domain : String) (st : LoopState) (trimmed : String) : LoopState :=
  { st with
    ctx := pushWarning st.ctx (unknownMechMsg trimmed domain)
    idx := st.idx + 1 }

/-- Fall-through for the `v=spf1` token itself: only `i++`. -/
def stepSkip (st : LoopState) : LoopState := { st with idx := st.idx + 1 }

/-- One iteration of the mechanism loop, dispatching exactly in the branch
order of the source. -/
def mechStep (recur : String → Context → Option Node × Context) (domain : String)
    (st : LoopState) (tok : String) : LoopState :=
  let trimmed := jsTrim tok
  if st.allFound then stepAfterAll domain st trimmed
  else if matchInclude trimmed then stepInclude recur st trimmed
  else if jsStartsWith trimmed "redirect=" then stepRedirect recur domain st trimmed
  else if matchIp4 trimmed then stepIp4 st trimmed
  else if matchIp6 trimmed then stepIp6 st trimmed
  else if matchPtr trimmed then stepPtr domain st trimmed
  else if matchA trimmed then stepA st trimmed
  else if matchMx trimmed then stepMx domain st trimmed
  else if matchExists trimmed then stepExists st trimmed
  else if matchAll trimmed then stepAll st trimmed
  else if !(jsStartsWith trimmed "v=spf1") then stepUnknown domain st trimmed
  else stepSkip st

/-- Source expression `record.split(/\s+/).filter(m => m.trim())`. -/
def splitMechanisms (record : String) : List String :=
  (splitOnChar Char.isWhitespace record).filter (fun m => jsTrim m != "")

/-- The warnings recorded when no usable record came back (lines 96-103):
only NXDOMAIN and no-SPF leave a message; every other failure (`servfail`,
`network`, `exception`, `no-answer`) is silent. -/
def noRecordCtx (domain : String) (result : ResolveResult) (ctx2 : Context) : Context :=
  if result.error == some "nxdomain" then pushWarning ctx2 (nxdomainMsg domain)
  else if result.error == some "no-spf" then pushWarning ctx2 (noSpfMsg domain)
  else ctx2

/-- The record-shape checks (lines 107-118): `v=spf1` prefix, then the
512/450 octet thresholds. -/
def shapeChecks (domain record : String) (ctx2 : Context) : Context :=
  let ctx3 := if !(jsStartsWith record "v=spf1") then
      pushError ctx2 (badStartMsg domain) else ctx2
  let recordLength := record.utf8ByteSize
  if recordLength > 512 then pushError ctx3 (tooLongErrMsg recordLength domain)
  else if recordLength > 450 then pushWarning ctx3 (longWarnMsg recordLength domain)
  else ctx3

/-- Package the finished loop state as the returned tree node (lines
268-278); the node carries the final shared-context contents. -/
def finishNode (domain record : String) (st : LoopState) : Option Node × Context :=
  (some { domain := domain, record := record, children := st.children,
          dnsLookups := st.dnsLookups, netblocks := st.netblocks,
          warnings := st.ctx.warnings, errors := st.ctx.errors,
          voidLookups := st.ctx.voidLookups }, st.ctx)

/-- Source `parseSPFTree`, with an explicit fuel that is structurally
decreasing.  The `depth > 10` guard makes the recursion depth at most 11
levels, so any fuel of at least `12 - depth` (in particular fuel 12 at
depth 0, see `parseSPFTree`) never reaches the artificial fuel-0 arm. -/
def parseSPFTreeF : Nat → Oracle → String → Nat → List String → Context →
    Option Node × Context
  | 0, _, _, _, _, ctx => (none, ctx)
  | fuel + 1, oracle, domain, depth, visited, ctx =>
    if depth > 10 ∨ visited.contains domain then
      (none, pushError ctx (depthCycleMsg domain))
    else
      let ctx1 := { ctx with queries := ctx.queries ++ [domain] }
      let result := resolveSPFRecord oracle domain depth visited
      let ctx2 := applyVoidCheck ctx1 domain result.isVoid
      if result.error == some "multiple-spf" then
        (none, pushError ctx2 (multipleSpfMsg domain))
      else
        match result.record with
        | none => (none, noRecordCtx domain result ctx2)
        | some record =>
          let st := (splitMechanisms record).foldl
            (mechStep (fun d c => parseSPFTreeF fuel oracle d (depth + 1) (visited ++ [domain]) c)
              domain)
            (initLoopState (shapeChecks domain record ctx2))
          finishNode domain record st

/-- The fresh context created by the default parameter of `parseSPFTree`. -/
def initContext : Context := { voidLookups := 0, warnings := [], errors := [], queries := [] }

/-- The top-level `parseSPFTree(domain)` call made by `checkSPF`: depth 0,
empty visited set, fresh context.  Fuel 12 is enough for the depth guard to
fire before the fuel is exhausted on every oracle. -/
def parseSPFTree (oracle : Oracle) (domain : String) : Option Node × Context :=
  parseSPFTreeF 12 oracle domain 0 [] initContext

/-- One step of the `reduce` in `checkSPF`: add the address count of one
netblock, with `NaN` (i.e. `none`) propagation. -/
def ipv4Fold (acc : Option ℚ) (nb : String) : Option ℚ :=
  match acc, calculateIPv4Count nb with
  | some a, some b => some (a + b)
  | _, _ => none

/-- JS `reduce` over the de-duplicated netblocks (lines 429-432). -/
def totalIPv4Count (netblocks : List String) : Option ℚ :=
  (jsSetList netblocks).foldl ipv4Fold (some 0)

/-- The duplicate-netblock table of `checkSPF` (lines 419-426): netblocks
occurring more than once, in first-occurrence order, with their counts. -/
def duplicateNetblocks (netblocks : List String) : List (String × Nat) :=
  (jsSetList netblocks).filterMap (fun nb =>
    let c := netblocks.count nb
    if c > 1 then some (nb, c) else none)

/-- What `checkSPF` hands to the presentation layer: a bare error message
(the `setError` paths) or the result object built from the returned tree. -/
inductive CheckOutcome where
  | failure (message : String)
  | success (tree : Node) (dnsLookups : Nat) (netblockCount : Nat)
      (ipv4Count : Option ℚ) (duplicates : List (String × Nat))
      (warnings : List String) (errors : List String) (voidLookups : Nat)

def CheckOutcome.message : CheckOutcome → Option String
  | .failure m => some m
  | .success .. => none

def CheckOutcome.isSuccess : CheckOutcome → Bool
  | .failure _ => false
  | .success .. => true

def CheckOutcome.errorsOut : CheckOutcome → List String
  | .failure _ => []
  | .success _ _ _ _ _ _ e _ => e

def CheckOutcome.warningsOut : CheckOutcome → List String
  | .failure _ => []
  | .success _ _ _ _ _ w _ _ => w

def CheckOutcome.ipv4CountOut : CheckOutcome → Option ℚ
  | .failure _ => none
  | .success _ _ _ q _ _ _ _ => q

def CheckOutcome.netblockCountOut : CheckOutcome → Nat
  | .failure _ => 0
  | .success _ _ n _ _ _ _ _ => n

def CheckOutcome.duplicatesOut : CheckOutcome → List (String × Nat)
  | .failure _ => []
  | .success _ _ _ _ d _ _ _ => d

/-- Source `checkSPF` (lines 398-443), up to the data handed to the UI. -/
def checkSPF (oracle : Oracle) (domain : String) : CheckOutcome :=
  if jsTrim domain == "" then CheckOutcome.failure "도메인을 입력해주세요."
  else
    match parseSPFTree oracle (jsTrim domain) with
    | (none, _) => CheckOutcome.failure "SPF 레코드를 찾을 수 없습니다."
    | (some tree, _) =>
      CheckOutcome.success tree tree.dnsLookups (jsSetList tree.netblocks).length
        (totalIPv4Count tree.netblocks) (duplicateNetblocks tree.netblocks)
        tree.warnings tree.errors tree.voidLookups

/-- A successful TXT response whose strings are returned quoted, as the DoH
endpoint does. -/
def txtOk (records : List String) : FetchOutcome :=
  FetchOutcome.ok 0 (some (records.map (fun r => { data := some ("\x22" ++ r ++ "\x22") })))

/-- The components of a netblock around `/`, shared by the spec-side
definitions below. -/
def cidrParts (nb : String) : List String := splitOnChar (fun c => c == '/') nb

/-- Spec-side well-formedness of a netblock, following the words of the
specification: a `/n` suffix is present and `n` is a decimal number.  Used only to
compare `calculateIPv4Count` against the specified formula. -/
def wfCIDR (nb : String) : Bool :=
  match cidrParts nb with
  | [_, ds] => !ds.toList.isEmpty && ds.toList.all Char.isDigit
  | _ => false

/-- Spec-side prefix length, read off the `/n` suffix as the specification
states it. -/
def specPrefixLen (nb : String) : Nat :=
  match cidrParts nb with
  | [_, ds] => digitsVal ds.toList
  | _ => 32

/-- The loop invariant tying the `netblocks` of a node to its `children`. -/
def nbInv (st : LoopState) : Prop := st.netblocks = collectNetblocks st.children

/- Concrete DNS oracles used to exercise the resolver. -/

def oracleC1 : Oracle := fun d =>
  if d == "self.example" then txtOk ["v=spf1 include:self.example -all"]
  else if d == "loopa.example" then txtOk ["v=spf1 include:loopb.example -all"]
  else if d == "loopb.example" then txtOk ["v=spf1 include:loopa.example -all"]
  else if d == "sibroot.example" then
    txtOk ["v=spf1 include:childa.example include:childb.example -all"]
  else if d == "childa.example" then txtOk ["v=spf1 include:shared.example -all"]
  else if d == "childb.example" then txtOk ["v=spf1 include:shared.example -all"]
  else if d == "shared.example" then txtOk ["v=spf1 ip4:203.0.113.7 -all"]
  else txtOk []

/-- A chain of 12 nested includes: `d0` includes `d1`, …, `d11` includes
`d12`. -/
def chainTable : List (String × String) :=
  (List.range 12).map
    (fun k => ("d" ++ toString k, "v=spf1 include:d" ++ toString (k + 1) ++ " -all"))

def chainOracle : Oracle := fun d =>
  match chainTable.lookup d with
  | some r => txtOk [r]
  | none => txtOk []

/-- Four void lookups (two NXDOMAIN, an empty answer, a missing answer), one
SERVFAIL and one thrown fetch, all under one root. -/
def oracleC3 : Oracle := fun d =>
  if d == "r3.example" then
    txtOk ["v=spf1 include:v1.example include:v2.example include:s1.example include:e1.example include:v3.example include:v4.example -all"]
  else if d == "v1.example" then FetchOutcome.ok 3 none
  else if d == "v2.example" then FetchOutcome.ok 3 none
  else if d == "s1.example" then FetchOutcome.ok 2 none
  else if d == "e1.example" then FetchOutcome.exn
  else if d == "v3.example" then FetchOutcome.ok 0 (some [])
  else if d == "v4.example" then FetchOutcome.ok 0 none
  else txtOk []

def answersC4 : List TxtAnswer :=
  [{ data := some "\x22v=spf1 ip4:1.2.3.4 -all\x22" }, { data := some "\x22v=spf1 -all\x22" }]

def oracleC4 : Oracle := fun d =>
  if d == "multi.example" then FetchOutcome.ok 0 (some answersC4) else txtOk []

def oracleC5 : Oracle := fun d =>
  if d == "r5.example" then
    txtOk ["v=spf1 ip4:10.0.0.1 -all include:x5.example ip4:10.9.9.9 mx"]
  else txtOk ["v=spf1 -all"]

def oracleC6 : Oracle := fun d =>
  if d == "r6.example" then
    txtOk ["v=spf1 ip4:192.0.2.0/24 ip4:192.0.2.1 ip6:2001:db8::/32 include:c6.example -all"]
  else if d == "c6.example" then txtOk ["v=spf1 ip4:192.0.2.0/24 -all"]
  else txtOk []

def oracleC7ok : Oracle := fun d =>
  if d == "ok7.example" then txtOk ["v=spf1 include:miss7.example ip4:198.51.100.0/24 -all"]
  else FetchOutcome.ok 3 none

def answersC7 : List TxtAnswer :=
  [{ data := some "\x22v=spf1 -all\x22" },
   { data := some "\x22v=spf1 ip4:203.0.113.0/24 -all\x22" }]

def oracleC7multi : Oracle := fun d =>
  if d == "r7.example" then FetchOutcome.ok 0 (some answersC7) else txtOk []

def oracleC8 : Oracle := fun d =>
  if d == "r8.example" then txtOk ["v=spf1 include:sf8.example include:ok8.example -all"]
  else if d == "sf8.example" then FetchOutcome.ok 2 none
  else if d == "ok8.example" then txtOk ["v=spf1 ip4:198.51.100.9 -all"]
  else txtOk []

def oracleC9 : Oracle := fun d =>
  if d == "r9.example" then txtOk ["v=spf1 -all redirect=t9.example"]
  else txtOk ["v=spf1 -all"]

def oracleC10 : Oracle := fun d =>
  if d == "r10.example" then
    txtOk ["v=spf1 INCLUDE:o10.example ALL A mX Ptr EXISTS:q10.example ip4:9.9.9.9 -all"]
  else txtOk ["v=spf1 -all"]

/- Defaults used to name the components of concrete resolutions. -/

def emptyNode : Node :=
  { domain := "", record := "", children := [], dnsLookups := 0, netblocks := [],
    warnings := [], errors := [], voidLookups := 0 }

def tree7 : Node := ((parseSPFTree oracleC7ok "ok7.example").1).getD emptyNode

def ctx7 : Context := (parseSPFTree oracleC7ok "ok7.example").2

/-! ## Helper lemmas -/

theorem parseSPFTreeF_guard (f : Nat) (oracle : Oracle) (domain : String) (depth : Nat)
    (visited : List String) (ctx : Context)
    (h : depth > 10 ∨ visited.contains domain) :
    parseSPFTreeF (f + 1) oracle domain depth visited ctx =
      (none, pushError ctx (depthCycleMsg domain)) := by
  unfold parseSPFTreeF
  rw [if_pos h]

theorem resolveSPFRecord_isVoid_iff (o : Oracle) (d : String) (dep : Nat) (vis : List String) :
    (resolveSPFRecord o d dep vis).isVoid = true ↔
      ((resolveSPFRecord o d dep vis).error = some "nxdomain" ∨
       (resolveSPFRecord o d dep vis).error = some "no-answer") := by
  unfold resolveSPFRecord
  split
  · simp
  · match ho : o d with
    | .notOk => simp
    | .exn => simp
    | .ok status answer =>
      dsimp only
      split
      · simp
      · split
        · simp
        · split
          · simp
          · split <;> simp

theorem resolveSPFRecord_servfail (o : Oracle) (d : String) (dep : Nat) (vis : List String)
    (ans : Option (List TxtAnswer)) (hg : ¬(dep > 10 ∨ vis.contains d))
    (ho : o d = FetchOutcome.ok 2 ans) :
    resolveSPFRecord o d dep vis =
      { record := none, error := some "servfail", isVoid := false, records := [] } := by
  unfold resolveSPFRecord
  rw [if_neg hg, ho]
  rfl

theorem resolveSPFRecord_notOk (o : Oracle) (d : String) (dep : Nat) (vis : List String)
    (hg : ¬(dep > 10 ∨ vis.contains d)) (ho : o d = FetchOutcome.notOk) :
    resolveSPFRecord o d dep vis =
      { record := none, error := some "network", isVoid := false, records := [] } := by
  unfold resolveSPFRecord
  rw [if_neg hg, ho]

theorem resolveSPFRecord_exn (o : Oracle) (d : String) (dep : Nat) (vis : List String)
    (hg : ¬(dep > 10 ∨ vis.contains d)) (ho : o d = FetchOutcome.exn) :
    resolveSPFRecord o d dep vis =
      { record := none, error := some "exception", isVoid := false, records := [] } := by
  unfold resolveSPFRecord
  rw [if_neg hg, ho]

theorem resolveSPFRecord_multiple (o : Oracle) (d : String) (dep : Nat) (vis : List String)
    (answers : List TxtAnswer) (hg : ¬(dep > 10 ∨ vis.contains d))
    (ho : o d = FetchOutcome.ok 0 (some answers)) (h2 : 2 ≤ (spfFilter answers).length) :
    resolveSPFRecord o d dep vis =
      { record := none, error := some "multiple-spf", isVoid := false,
        records := (spfFilter answers).map (fun a => jsTrim (stripQuotes (a.data.getD ""))) } := by
  unfold resolveSPFRecord
  rw [if_neg hg, ho]
  have hne : answers ≠ [] := by
    intro he
    rw [he] at h2
    simp [spfFilter] at h2
  have hemp : answers.isEmpty = false := by
    cases answers with
    | nil => exact absurd rfl hne
    | cons a t => rfl
  simp [hemp]
  rcases hf : spfFilter answers with _ | ⟨a, _ | ⟨b, rest⟩⟩
  · rw [hf] at h2
    simp at h2
  · rw [hf] at h2
    simp at h2
  · rfl

theorem parseSPFTreeF_multiple_step (f : Nat) (oracle : Oracle) (domain : String) (depth : Nat)
    (visited : List String) (ctx : Context) (recs : List String)
    (hg : ¬(depth > 10 ∨ visited.contains domain))
    (hr : resolveSPFRecord oracle domain depth visited =
      { record := none, error := some "multiple-spf", isVoid := false, records := recs }) :
    parseSPFTreeF (f + 1) oracle domain depth visited ctx =
      (none, pushError { ctx with queries := ctx.queries ++ [domain] }
        (multipleSpfMsg domain)) := by
  unfold parseSPFTreeF
  rw [if_neg hg]
  rw [hr]
  simp [applyVoidCheck]

theorem parseSPFTreeF_silent_step (f : Nat) (oracle : Oracle) (domain : String) (depth : Nat)
    (visited : List String) (ctx : Context) (e : String)
    (hg : ¬(depth > 10 ∨ visited.contains domain))
    (hr : resolveSPFRecord oracle domain depth visited =
      { record := none, error := some e, isVoid := false, records := [] })
    (he : e = "servfail" ∨ e = "network" ∨ e = "exception" ∨ e = "max-depth") :
    parseSPFTreeF (f + 1) oracle domain depth visited ctx =
      (none, { ctx with queries := ctx.queries ++ [domain] }) := by
  unfold parseSPFTreeF
  rw [if_neg hg]
  rw [hr]
  rcases he with he | he | he | he <;> subst he <;> simp [applyVoidCheck, noRecordCtx]

theorem foldl_inv {α β : Type} {P : β → Prop} {f : β → α → β}
    (hf : ∀ s a, P s → P (f s a)) : ∀ (l : List α) (s : β), P s → P (l.foldl f s) := by
  intro l
  induction l with
  | nil => intro s hs; simpa using hs
  | cons a t ih =>
    intro s hs
    rw [List.foldl_cons]
    exact ih _ (hf s a hs)

theorem stepInclude_nbInv (recur : String → Context → Option Node × Context)
    (st : LoopState) (trimmed : String) (h : nbInv st) :
    nbInv (stepInclude recur st trimmed) := by
  unfold nbInv at *
  unfold stepInclude
  dsimp only
  split
  · simp [collectNetblocks, childNetblocks, h]
  · simpa using h

theorem stepRedirect_nbInv (recur : String → Context → Option Node × Context) (domain : String)
    (st : LoopState) (trimmed : String) (h : nbInv st) :
    nbInv (stepRedirect recur domain st trimmed) := by
  unfold nbInv at *
  unfold stepRedirect
  dsimp only
  split
  · simpa using h
  · split
    · simp [collectNetblocks, childNetblocks, h]
    · simpa using h

set_option maxHeartbeats 3200000 in
theorem mechStep_nbInv (recur : String → Context → Option Node × Context) (domain : String)
    (st : LoopState) (tok : String) (h : nbInv st) :
    nbInv (mechStep recur domain st tok) := by
  unfold mechStep
  dsimp only
  split
  · simpa [nbInv] using h
  · split
    · exact stepInclude_nbInv _ _ _ h
    · split
      · exact stepRedirect_nbInv _ _ _ _ h
      · split
        · unfold nbInv at *
          simp [stepIp4, collectNetblocks, childNetblocks, h]
        · split
          · unfold nbInv at *
            simp [stepIp6, collectNetblocks, childNetblocks, h]
          · split
            · unfold nbInv at *
              simp [stepPtr, collectNetblocks, childNetblocks, h]
            · split
              · unfold nbInv at *
                simp [stepA, collectNetblocks, childNetblocks, h]
              · split
                · unfold nbInv at *
                  simp [stepMx, collectNetblocks, childNetblocks, h]
                · split
                  · unfold nbInv at *
                    simp [stepExists, collectNetblocks, childNetblocks, h]
                  · split
                    · unfold nbInv at *
                      simp [stepAll, collectNetblocks, childNetblocks, h]
                    · split
                      · simpa [nbInv, stepUnknown] using h
                      · simpa [nbInv, stepSkip] using h

theorem initLoopState_nbInv (ctx : Context) : nbInv (initLoopState ctx) := by
  simp [nbInv, initLoopState, collectNetblocks]

theorem parseSPFTreeF_some_inv (fuel : Nat) (oracle : Oracle) (domain : String) (depth : Nat)
    (visited : List String) (ctx : Context) (n : Node) (ctx' : Context)
    (h : parseSPFTreeF fuel oracle domain depth visited ctx = (some n, ctx')) :
    n.domain = domain ∧ n.warnings = ctx'.warnings ∧ n.errors = ctx'.errors ∧
    n.voidLookups = ctx'.voidLookups ∧ n.netblocks = collectNetblocks n.children := by
  match fuel with
  | 0 =>
    unfold parseSPFTreeF at h
    exact absurd h (by simp)
  | fuel + 1 =>
    unfold parseSPFTreeF at h
    split at h
    · exact absurd h (by simp)
    · dsimp only at h
      split at h
      · exact absurd h (by simp)
      · split at h
        · exact absurd h (by simp)
        · unfold finishNode at h
          rw [Prod.mk.injEq] at h
          obtain ⟨h1, h2⟩ := h
          rw [Option.some.injEq] at h1
          subst h1
          subst h2
          refine ⟨rfl, rfl, rfl, rfl, ?_⟩
          dsimp only
          exact foldl_inv (fun s a hs => mechStep_nbInv _ _ s a hs) _ _
            (initLoopState_nbInv _)

theorem mechStep_after_all (recur : String → Context → Option Node × Context) (domain : String)
    (st : LoopState) (tok : String) (h : st.allFound = true) :
    mechStep recur domain st tok = stepAfterAll domain st (jsTrim tok) := by
  unfold mechStep
  dsimp only
  rw [if_pos h]

theorem takeWhile_all_digits (l : List Char) (h : l.all Char.isDigit = true) :
    l.takeWhile Char.isDigit = l := by
  induction l with
  | nil => rfl
  | cons c t ih =>
    rw [List.all_cons, Bool.and_eq_true] at h
    rw [List.takeWhile_cons, if_pos h.1, ih h.2]

theorem calculateIPv4Count_wf (nb : String) (h : wfCIDR nb = true) :
    calculateIPv4Count nb = some (jsPow2 (32 - (specPrefixLen nb : Int))) := by
  unfold wfCIDR at h
  unfold calculateIPv4Count specPrefixLen
  rcases hp : cidrParts nb with _ | ⟨a, _ | ⟨ds, _ | _⟩⟩ <;> rw [hp] at h <;> try simp at h
  obtain ⟨hne, hdig⟩ := h
  unfold cidrParts at hp
  rw [hp]
  have hb : (ds == "") = false := by
    rcases hds : ds.toList with _ | ⟨c, t⟩
    · exact absurd hds hne
    · cases ds with
      | mk data =>
        simp only [String.toList] at hds
        subst hds
        rfl
  simp only [List.getElem?_cons_zero, List.getElem?_cons_succ, Option.getD_some, hb]
  unfold jsParseIntNat
  have hdig2 : ds.toList.all Char.isDigit = true := by
    simpa using hdig
  rw [takeWhile_all_digits ds.toList hdig2]
  have hemp : ds.toList.isEmpty = false := by
    rcases hds : ds.toList with _ | ⟨c, t⟩
    · exact absurd hds hne
    · rfl
  simp [hemp, hne]

theorem ipv4Fold_aux (l : List String) : ∀ q : ℚ, (∀ nb ∈ l, wfCIDR nb = true) →
    l.foldl ipv4Fold (some q) =
      some (q + (l.map (fun nb => jsPow2 (32 - (specPrefixLen nb : Int)))).sum) := by
  induction l with
  | nil =>
    intro q _
    simp
  | cons a t ih =>
    intro q h
    have ha : wfCIDR a = true := h a (by simp)
    have ht : ∀ nb ∈ t, wfCIDR nb = true := fun nb hm => h nb (by simp [hm])
    rw [List.foldl_cons]
    have hstep : ipv4Fold (some q) a = some (q + jsPow2 (32 - (specPrefixLen a : Int))) := by
      unfold ipv4Fold
      rw [calculateIPv4Count_wf a ha]
    rw [hstep, ih _ ht, List.map_cons, List.sum_cons]
    ring_nf

theorem totalIPv4Count_formula (nbs : List String)
    (h : ∀ nb ∈ jsSetList nbs, wfCIDR nb = true) :
    totalIPv4Count nbs =
      some (((jsSetList nbs).map (fun nb => jsPow2 (32 - (specPrefixLen nb : Int)))).sum) := by
  unfold totalIPv4Count
  rw [ipv4Fold_aux _ 0 h]
  simp

theorem checkSPF_success_eq (o : Oracle) (d : String) (tree : Node) (ctx' : Context)
    (hd : (jsTrim d == "") = false) (hp : parseSPFTree o (jsTrim d) = (some tree, ctx')) :
    checkSPF o d =
      CheckOutcome.success tree tree.dnsLookups (jsSetList tree.netblocks).length
        (totalIPv4Count tree.netblocks) (duplicateNetblocks tree.netblocks)
        ctx'.warnings ctx'.errors ctx'.voidLookups := by
  obtain ⟨_, hw, he, hv, _⟩ :=
    parseSPFTreeF_some_inv 12 o (jsTrim d) 0 [] initContext tree ctx' hp
  unfold checkSPF
  rw [hp]
  simp [hd, hw, he, hv]

theorem checkSPF_failure_eq (o : Oracle) (d : String) (ctx' : Context)
    (hd : (jsTrim d == "") = false) (hp : parseSPFTree o (jsTrim d) = (none, ctx')) :
    checkSPF o d = CheckOutcome.failure "SPF 레코드를 찾을 수 없습니다." := by
  unfold checkSPF
  rw [hp]
  simp [hd]

/-! ## Claim theorems -/

/-- C1: the visited set is branch-local (each recursive expansion receives a
fresh copy) while the diagnostics context is shared: a domain already on the
current root-to-leaf path is rejected as a cycle (error recorded in the
shared context, `none` returned) — shown in general for any call whose
domain is in the visited set of the branch, and concretely for a direct
self-include and a two-hop loop — while the same domain appearing in two
sibling include branches is resolved normally in both. -/
theorem C1_branch_local_visited_shared_diagnostics :
    (∀ (f : Nat) (oracle : Oracle) (domain : String) (depth : Nat) (visited : List String)
        (ctx : Context), visited.contains domain →
        parseSPFTreeF (f + 1) oracle domain depth visited ctx =
          (none, pushError ctx (depthCycleMsg domain))) ∧
    ((parseSPFTree oracleC1 "self.example").2.errors = [depthCycleMsg "self.example"] ∧
     (parseSPFTree oracleC1 "self.example").1.map Node.dnsLookups = some 1 ∧
     (parseSPFTree oracleC1 "self.example").1.map (fun n => n.children.map childKind) =
       some ["all"] ∧
     (parseSPFTree oracleC1 "self.example").2.queries = ["self.example"]) ∧
    ((parseSPFTree oracleC1 "loopa.example").2.errors = [depthCycleMsg "loopa.example"] ∧
     (parseSPFTree oracleC1 "loopa.example").2.queries = ["loopa.example", "loopb.example"]) ∧
    ((parseSPFTree oracleC1 "sibroot.example").2.errors = [] ∧
     (parseSPFTree oracleC1 "sibroot.example").2.queries =
       ["sibroot.example", "childa.example", "shared.example", "childb.example",
        "shared.example"] ∧
     (parseSPFTree oracleC1 "sibroot.example").1.map Node.netblocks =
       some ["203.0.113.7/32", "203.0.113.7/32"]) := by
  refine ⟨?_, ?_, ?_, ?_⟩
  · intro f oracle domain depth visited ctx h
    exact parseSPFTreeF_guard f oracle domain depth visited ctx (Or.inr h)
  · exact ⟨by decide, by decide, by decide, by decide⟩
  · exact ⟨by decide, by decide⟩
  · exact ⟨by decide, by decide, by decide⟩

theorem C1_witness :
    parseSPFTreeF 1 oracleC1 "self.example" 5 ["self.example"] initContext =
      (none, pushError initContext (depthCycleMsg "self.example")) :=
  C1_branch_local_visited_shared_diagnostics.1 0 oracleC1 "self.example" 5 ["self.example"]
    initContext (by decide)

/-- C2: a call with `depth > 10` or with the domain already visited appends
the max-recursion-depth/circular-reference error and returns `none` without
issuing any DNS lookup (the query trace of the context is untouched), so the
recursion is bounded; a synthetic chain of 12 nested includes terminates
with that error at the 11th level, after exactly 11 lookups, while still
returning the root node. -/
theorem C2_depth_guard_bounds_recursion :
    (∀ (f : Nat) (oracle : Oracle) (domain : String) (depth : Nat) (visited : List String)
        (ctx : Context), depth > 10 ∨ visited.contains domain →
        parseSPFTreeF (f + 1) oracle domain depth visited ctx =
          (none, pushError ctx (depthCycleMsg domain)) ∧
        (pushError ctx (depthCycleMsg domain)).queries = ctx.queries) ∧
    ((parseSPFTree chainOracle "d0").2.errors = [depthCycleMsg "d11"] ∧
     (parseSPFTree chainOracle "d0").2.queries =
       (List.range 11).map (fun k => "d" ++ toString k) ∧
     (parseSPFTree chainOracle "d0").1.isSome = true) := by
  refine ⟨?_, by decide, by decide, by decide⟩
  intro f oracle domain depth visited ctx h
  exact ⟨parseSPFTreeF_guard f oracle domain depth visited ctx h, rfl⟩

theorem C2_witness :
    parseSPFTreeF 1 chainOracle "d11" 11 [] initContext =
      (none, pushError initContext (depthCycleMsg "d11")) ∧
    (pushError initContext (depthCycleMsg "d11")).queries = initContext.queries :=
  C2_depth_guard_bounds_recursion.1 0 chainOracle "d11" 11 [] initContext (by decide)

/-- C4: whenever the TXT answer set of a domain holds two or more entries
containing `v=spf1`, the resolver appends the RFC 7208 PermError to the
shared errors (which therefore become non-empty) and returns `none` — no
tree node — for any answer contents, even though the DNS query itself
succeeded (status 0). -/
theorem C4_multiple_spf_permerror :
    (∀ (f : Nat) (oracle : Oracle) (domain : String) (depth : Nat) (visited : List String)
        (ctx : Context) (answers : List TxtAnswer),
        ¬(depth > 10 ∨ visited.contains domain) →
        oracle domain = FetchOutcome.ok 0 (some answers) →
        2 ≤ (spfFilter answers).length →
        parseSPFTreeF (f + 1) oracle domain depth visited ctx =
          (none, pushError { ctx with queries := ctx.queries ++ [domain] }
            (multipleSpfMsg domain)) ∧
        (pushError { ctx with queries := ctx.queries ++ [domain] }
            (multipleSpfMsg domain)).errors ≠ []) ∧
    ((parseSPFTree oracleC4 "multi.example").1.isNone = true ∧
     (parseSPFTree oracleC4 "multi.example").2.errors = [multipleSpfMsg "multi.example"]) := by
  refine ⟨?_, by decide, by decide⟩
  intro f oracle domain depth visited ctx answers hg ho h2
  have hr := resolveSPFRecord_multiple oracle domain depth visited answers hg ho h2
  refine ⟨parseSPFTreeF_multiple_step f oracle domain depth visited ctx _ hg hr, ?_⟩
  simp [pushError]

theorem C4_witness :
    parseSPFTreeF 1 oracleC4 "multi.example" 0 [] initContext =
      (none, pushError { initContext with queries := initContext.queries ++ ["multi.example"] }
        (multipleSpfMsg "multi.example")) ∧
    (pushError { initContext with queries := initContext.queries ++ ["multi.example"] }
        (multipleSpfMsg "multi.example")).errors ≠ [] :=
  C4_multiple_spf_permerror.1 0 oracleC4 "multi.example" 0 [] initContext answersC4
    (by decide) (by decide) (by decide)

/-- C10: mechanism-kind classification is case-insensitive for `a`, `mx`,
`ptr` and `exists` but case-sensitive for `include`, `redirect`, `ip4`,
`ip6` and `all`: `INCLUDE:…` and `ALL` fall through to the unknown-mechanism
branch, producing only a warning — no recursion (one single DNS query in the
trace), no lookup count, no netblock, and no terminal-`all` effect (the
`ip4` token after `ALL` is still counted). -/
theorem C10_case_sensitivity_of_classification :
    (matchA "A" = true ∧ matchA "a" = true ∧ matchMx "MX" = true ∧ matchMx "mX" = true ∧
     matchPtr "PTR" = true ∧ matchPtr "Ptr" = true ∧ matchExists "EXISTS:q10.example" = true ∧
     matchInclude "INCLUDE:other.example" = false ∧ matchInclude "include:other.example" = true ∧
     matchAll "ALL" = false ∧ matchAll "all" = true ∧ matchIp4 "IP4:1.2.3.4" = false ∧
     matchIp6 "IP6:2001:db8::" = false ∧ jsStartsWith "REDIRECT=x.example" "redirect=" = false) ∧
    ((parseSPFTree oracleC10 "r10.example").2.queries = ["r10.example"] ∧
     (parseSPFTree oracleC10 "r10.example").2.warnings =
       [unknownMechMsg "INCLUDE:o10.example" "r10.example", unknownMechMsg "ALL" "r10.example",
        mxWarnMsg "r10.example", ptrWarnMsg "r10.example"] ∧
     (parseSPFTree oracleC10 "r10.example").1.map Node.dnsLookups = some 4 ∧
     (parseSPFTree oracleC10 "r10.example").1.map Node.netblocks = some ["9.9.9.9/32"] ∧
     (parseSPFTree oracleC10 "r10.example").1.map (fun n => n.children.map childKind) =
       some ["a", "mx", "ptr", "exists", "ip4", "all"] ∧
     (parseSPFTree oracleC10 "r10.example").2.errors = []) := by
  exact ⟨by decide, by decide, by decide, by decide, by decide, by decide, by decide⟩

set_option maxRecDepth 4000 in
/-- C3: the shared void-lookup counter starts at 0 and is incremented exactly
on void classifications — a lookup is void iff it was classified NXDOMAIN or
no-answer (empty/absent TXT response), so SERVFAIL, transport failures and
exceptions never increment it — and each increment that takes the counter
past 2 appends one error naming the current count, without deduplication:
in a run with four voids and one SERVFAIL plus one exception the counter
ends at 4 and the budget error appears twice, at counts 3 and 4. -/
theorem C3_void_budget_accounting :
    (∀ (o : Oracle) (d : String) (dep : Nat) (vis : List String),
        (resolveSPFRecord o d dep vis).isVoid = true ↔
          ((resolveSPFRecord o d dep vis).error = some "nxdomain" ∨
           (resolveSPFRecord o d dep vis).error = some "no-answer")) ∧
    (∀ (ctx : Context) (d : String),
        (applyVoidCheck ctx d true).voidLookups = ctx.voidLookups + 1 ∧
        applyVoidCheck ctx d false = ctx) ∧
    (∀ (ctx : Context) (d : String), 2 < ctx.voidLookups + 1 →
        (applyVoidCheck ctx d true).errors =
          ctx.errors ++ [voidLimitMsg (ctx.voidLookups + 1) d]) ∧
    (∀ (ctx : Context) (d : String), ctx.voidLookups + 1 ≤ 2 →
        (applyVoidCheck ctx d true).errors = ctx.errors) ∧
    initContext.voidLookups = 0 ∧
    ((parseSPFTree oracleC3 "r3.example").2.voidLookups = 4 ∧
     (parseSPFTree oracleC3 "r3.example").2.errors =
       [voidLimitMsg 3 "v3.example", voidLimitMsg 4 "v4.example"] ∧
     (parseSPFTree oracleC3 "r3.example").2.warnings =
       [nxdomainMsg "v1.example", nxdomainMsg "v2.example"]) := by
  refine ⟨resolveSPFRecord_isVoid_iff, ?_, ?_, ?_, rfl, by decide, by decide, by decide⟩
  · intro ctx d
    constructor
    · simp [applyVoidCheck, pushError]
      split <;> rfl
    · rfl
  · intro ctx d h
    unfold applyVoidCheck
    rw [if_pos rfl]
    dsimp only
    rw [if_pos (by omega : ctx.voidLookups + 1 > 2)]
    rfl
  · intro ctx d h
    unfold applyVoidCheck
    rw [if_pos rfl]
    dsimp only
    rw [if_neg (by omega : ¬ctx.voidLookups + 1 > 2)]

theorem C3_witness :
    (applyVoidCheck { voidLookups := 2, warnings := [], errors := [], queries := [] }
        "x.example" true).errors = [voidLimitMsg 3 "x.example"] :=
  C3_void_budget_accounting.2.2.1
    { voidLookups := 2, warnings := [], errors := [], queries := [] } "x.example" (by decide)

/-- C5: once an `all` mechanism has been seen in a record, every later token
is neither expanded nor counted — the loop step leaves children, lookup
count, netblocks and errors untouched and appends exactly one
ignored-after-all warning — and in a record with an `include`, an `ip4` and
an `mx` after `-all` the node ends with 0 lookups, only the pre-`all`
netblock, no extra children, no extra DNS query, and one warning per
skipped token. -/
theorem C5_tokens_after_all_ignored :
    (∀ (recur : String → Context → Option Node × Context) (domain : String) (st : LoopState)
        (tok : String), st.allFound = true →
        (mechStep recur domain st tok).ctx.warnings =
          st.ctx.warnings ++ [afterAllMsg (jsTrim tok) domain] ∧
        (mechStep recur domain st tok).ctx.errors = st.ctx.errors ∧
        (mechStep recur domain st tok).ctx.queries = st.ctx.queries ∧
        (mechStep recur domain st tok).ctx.voidLookups = st.ctx.voidLookups ∧
        (mechStep recur domain st tok).dnsLookups = st.dnsLookups ∧
        (mechStep recur domain st tok).netblocks = st.netblocks ∧
        (mechStep recur domain st tok).children = st.children ∧
        (mechStep recur domain st tok).allFound = true) ∧
    ((parseSPFTree oracleC5 "r5.example").1.map Node.dnsLookups = some 0 ∧
     (parseSPFTree oracleC5 "r5.example").1.map Node.netblocks = some ["10.0.0.1/32"] ∧
     (parseSPFTree oracleC5 "r5.example").1.map (fun n => n.children.map childKind) =
       some ["ip4", "all"] ∧
     (parseSPFTree oracleC5 "r5.example").2.queries = ["r5.example"] ∧
     (parseSPFTree oracleC5 "r5.example").2.errors = [] ∧
     (parseSPFTree oracleC5 "r5.example").2.warnings =
       [afterAllMsg "include:x5.example" "r5.example", afterAllMsg "ip4:10.9.9.9" "r5.example",
        afterAllMsg "mx" "r5.example"]) := by
  refine ⟨?_, by decide, by decide, by decide, by decide, by decide, by decide⟩
  intro recur domain st tok h
  rw [mechStep_after_all recur domain st tok h]
  simp [stepAfterAll, pushWarning, h]

theorem C5_witness :
    (mechStep (fun _ c => (none, c)) "w.example"
        { children := [], dnsLookups := 0, netblocks := [], allFound := true, idx := 1,
          ctx := initContext } "include:y.example").ctx.warnings =
      initContext.warnings ++ [afterAllMsg (jsTrim "include:y.example") "w.example"] :=
  (C5_tokens_after_all_ignored.1 (fun _ c => (none, c)) "w.example"
    { children := [], dnsLookups := 0, netblocks := [], allFound := true, idx := 1,
      ctx := initContext } "include:y.example" rfl).1

/-- C8 (amended): a lookup that ends in SERVFAIL, an HTTP failure or a thrown
fetch is classified non-void and makes the resolver return `none` for that
node with the shared context unchanged except for the query trace — no
warning and no error is recorded for it, contrary to the original claim —
and resolution of sibling and ancestor branches continues (the SERVFAIL
sibling branch still resolves and the root node is produced). -/
theorem C8_servfail_silent_non_void :
    (∀ (o : Oracle) (d : String) (dep : Nat) (vis : List String)
        (ans : Option (List TxtAnswer)), ¬(dep > 10 ∨ vis.contains d) →
        o d = FetchOutcome.ok 2 ans →
        resolveSPFRecord o d dep vis =
          { record := none, error := some "servfail", isVoid := false, records := [] }) ∧
    (∀ (f : Nat) (o : Oracle) (d : String) (dep : Nat) (vis : List String) (ctx : Context)
        (e : String), ¬(dep > 10 ∨ vis.contains d) →
        resolveSPFRecord o d dep vis =
          { record := none, error := some e, isVoid := false, records := [] } →
        e = "servfail" ∨ e = "network" ∨ e = "exception" →
        parseSPFTreeF (f + 1) o d dep vis ctx =
          (none, { ctx with queries := ctx.queries ++ [d] })) ∧
    (resolveSPFRecord oracleC8 "sf8.example" 1 ["r8.example"] =
      { record := none, error := some "servfail", isVoid := false, records := [] } ∧
     (parseSPFTree oracleC8 "r8.example").2.queries =
       ["r8.example", "sf8.example", "ok8.example"] ∧
     (parseSPFTree oracleC8 "r8.example").2.errors = [] ∧
     (parseSPFTree oracleC8 "r8.example").2.warnings = [] ∧
     (parseSPFTree oracleC8 "r8.example").2.voidLookups = 0 ∧
     (parseSPFTree oracleC8 "r8.example").1.map (fun n => n.children.map childKind) =
       some ["include", "all"] ∧
     (parseSPFTree oracleC8 "r8.example").1.map Node.netblocks =
       some ["198.51.100.9/32"]) := by
  refine ⟨resolveSPFRecord_servfail, ?_,
    by decide, by decide, by decide, by decide, by decide, by decide, by decide⟩
  intro f o d dep vis ctx e hg hr he
  refine parseSPFTreeF_silent_step f o d dep vis ctx e hg hr ?_
  rcases he with he | he | he
  · exact Or.inl he
  · exact Or.inr (Or.inl he)
  · exact Or.inr (Or.inr (Or.inl he))

theorem C8_witness :
    parseSPFTreeF 1 oracleC8 "sf8.example" 1 ["r8.example"] initContext =
      (none, { initContext with queries := initContext.queries ++ ["sf8.example"] }) :=
  C8_servfail_silent_non_void.2.1 0 oracleC8 "sf8.example" 1 ["r8.example"] initContext
    "servfail" (by decide) (by decide) (Or.inl rfl)

/-- C8 counterexample to the original claim: in the `oracleC8` run the
lookup of `sf8.example` is classified SERVFAIL, yet the shared context ends
with no warnings and no errors at all — the resolver records nothing for a
SERVFAIL/transport failure. -/
theorem C8_counterexample :
    resolveSPFRecord oracleC8 "sf8.example" 1 ["r8.example"] =
      { record := none, error := some "servfail", isVoid := false, records := [] } ∧
    (parseSPFTree oracleC8 "r8.example").2.queries =
      ["r8.example", "sf8.example", "ok8.example"] ∧
    (parseSPFTree oracleC8 "r8.example").2.errors = [] ∧
    (parseSPFTree oracleC8 "r8.example").2.warnings = [] := by
  exact ⟨by decide, by decide, by decide, by decide⟩

/-- C9 (amended): a `redirect=` token after an `all` in the same record is
skipped by the loop-level after-`all` guard: it receives exactly one generic
ignored-after-`all` warning — the dedicated redirect-specific warning branch
is unreachable and its message is never emitted — and contributes no DNS
lookup and no child node. -/
theorem C9_redirect_after_all_single_warning :
    (∀ (recur : String → Context → Option Node × Context) (domain : String) (st : LoopState)
        (tok : String), st.allFound = true → jsStartsWith (jsTrim tok) "redirect=" = true →
        mechStep recur domain st tok = stepAfterAll domain st (jsTrim tok) ∧
        (mechStep recur domain st tok).ctx.warnings =
          st.ctx.warnings ++ [afterAllMsg (jsTrim tok) domain] ∧
        (mechStep recur domain st tok).dnsLookups = st.dnsLookups ∧
        (mechStep recur domain st tok).children = st.children) ∧
    ((parseSPFTree oracleC9 "r9.example").2.warnings =
       [afterAllMsg "redirect=t9.example" "r9.example"] ∧
     redirectIgnoredMsg "r9.example" ∉ (parseSPFTree oracleC9 "r9.example").2.warnings ∧
     (parseSPFTree oracleC9 "r9.example").1.map Node.dnsLookups = some 0 ∧
     (parseSPFTree oracleC9 "r9.example").1.map (fun n => n.children.map childKind) =
       some ["all"] ∧
     (parseSPFTree oracleC9 "r9.example").2.queries = ["r9.example"]) := by
  refine ⟨?_, by decide, by decide, by decide, by decide, by decide⟩
  intro recur domain st tok h _
  have hm := mechStep_after_all recur domain st tok h
  refine ⟨hm, ?_, ?_, ?_⟩ <;> rw [hm] <;> simp [stepAfterAll, pushWarning]

theorem C9_witness :
    mechStep (fun _ c => (none, c)) "w9.example"
        { children := [], dnsLookups := 0, netblocks := [], allFound := true, idx := 1,
          ctx := initContext } "redirect=z.example" =
      stepAfterAll "w9.example"
        { children := [], dnsLookups := 0, netblocks := [], allFound := true, idx := 1,
          ctx := initContext } (jsTrim "redirect=z.example") :=
  (C9_redirect_after_all_single_warning.1 (fun _ c => (none, c)) "w9.example"
    { children := [], dnsLookups := 0, netblocks := [], allFound := true, idx := 1,
      ctx := initContext } "redirect=z.example" rfl (by decide)).1

/-- C9 counterexample to the original claim: after `-all`, the token
`redirect=t9.example` produces exactly the one generic ignored-after-all
warning — the dedicated redirect-ignored warning never appears — so the
token does not receive two warnings. -/
theorem C9_counterexample :
    (parseSPFTree oracleC9 "r9.example").2.warnings =
      [afterAllMsg "redirect=t9.example" "r9.example"] ∧
    redirectIgnoredMsg "r9.example" ∉ (parseSPFTree oracleC9 "r9.example").2.warnings ∧
    (parseSPFTree oracleC9 "r9.example").2.warnings ≠
      [afterAllMsg "redirect=t9.example" "r9.example", redirectIgnoredMsg "r9.example"] := by
  exact ⟨by decide, by decide, by decide⟩

set_option maxRecDepth 4000 in
/-- C6: the aggregate IPv4 address total is the sum of `2^(32 − prefix)`
over the de-duplicated netblock set (prefix read from the `/n` suffix), the
netblocks of every produced node are exactly those contributed by its `ip4`
children and the stored subtree netblocks of its `include`/`redirect`
children (bare addresses normalized to `/32`, `ip6` values excluded), and a
tree containing `192.0.2.0/24` (twice, once via an include) and `192.0.2.1`
sums to 256 + 1 = 257 over the de-duplicated set. -/
theorem C6_ipv4_address_totals :
    (∀ nbs : List String, (∀ nb ∈ jsSetList nbs, wfCIDR nb = true) →
        totalIPv4Count nbs =
          some (((jsSetList nbs).map (fun nb => jsPow2 (32 - (specPrefixLen nb : Int)))).sum)) ∧
    (∀ (fuel : Nat) (oracle : Oracle) (domain : String) (depth : Nat) (visited : List String)
        (ctx : Context) (n : Node) (ctx' : Context),
        parseSPFTreeF fuel oracle domain depth visited ctx = (some n, ctx') →
        n.netblocks = collectNetblocks n.children) ∧
    ((parseSPFTree oracleC6 "r6.example").1.map Node.netblocks =
       some ["192.0.2.0/24", "192.0.2.1/32", "192.0.2.0/24"] ∧
     (parseSPFTree oracleC6 "r6.example").1.map (fun n => n.children.map childKind) =
       some ["ip4", "ip4", "ip6", "include", "all"] ∧
     jsSetList ["192.0.2.0/24", "192.0.2.1/32", "192.0.2.0/24"] =
       ["192.0.2.0/24", "192.0.2.1/32"] ∧
     totalIPv4Count ["192.0.2.0/24", "192.0.2.1/32", "192.0.2.0/24"] = some 257 ∧
     (checkSPF oracleC6 "r6.example").ipv4CountOut = some 257 ∧
     (checkSPF oracleC6 "r6.example").netblockCountOut = 2 ∧
     (checkSPF oracleC6 "r6.example").duplicatesOut = [("192.0.2.0/24", 2)]) := by
  have h257 : totalIPv4Count ["192.0.2.0/24", "192.0.2.1/32", "192.0.2.0/24"] = some 257 := by
    rw [totalIPv4Count_formula _ (by decide)]
    rw [show jsSetList ["192.0.2.0/24", "192.0.2.1/32", "192.0.2.0/24"] =
      ["192.0.2.0/24", "192.0.2.1/32"] from by decide]
    rw [List.map_cons, List.map_cons, List.map_nil,
      show specPrefixLen "192.0.2.0/24" = 24 from by decide,
      show specPrefixLen "192.0.2.1/32" = 32 from by decide]
    rw [List.sum_cons, List.sum_cons, List.sum_nil]
    simp only [jsPow2]
    norm_num
    rw [show Int.toNat 8 = 8 from rfl]
    norm_num
  have hq : (parseSPFTree oracleC6 "r6.example").1.map Node.netblocks =
      some ["192.0.2.0/24", "192.0.2.1/32", "192.0.2.0/24"] := by decide
  have hkinds : (parseSPFTree oracleC6 "r6.example").1.map (fun n => n.children.map childKind) =
      some ["ip4", "ip4", "ip6", "include", "all"] := by decide
  have hj : jsTrim "r6.example" = "r6.example" := by decide
  rcases hp : parseSPFTree oracleC6 "r6.example" with ⟨t1, c1⟩
  rw [hp] at hq hkinds
  cases t1 with
  | none => simp at hq
  | some n =>
    have hnb : n.netblocks = ["192.0.2.0/24", "192.0.2.1/32", "192.0.2.0/24"] := by
      simpa using hq
    have hcs : checkSPF oracleC6 "r6.example" =
        CheckOutcome.success n n.dnsLookups (jsSetList n.netblocks).length
          (totalIPv4Count n.netblocks) (duplicateNetblocks n.netblocks)
          n.warnings n.errors n.voidLookups := by
      unfold checkSPF
      rw [hj, hp]
      simp
    refine ⟨totalIPv4Count_formula, ?_, hq, hkinds, by decide, h257, ?_, ?_, ?_⟩
    · intro fuel oracle domain depth visited ctx m ctx' h
      exact (parseSPFTreeF_some_inv fuel oracle domain depth visited ctx m ctx' h).2.2.2.2
    · rw [hcs]
      show totalIPv4Count n.netblocks = some 257
      rw [hnb]
      exact h257
    · rw [hcs]
      show (jsSetList n.netblocks).length = 2
      rw [hnb]
      decide
    · rw [hcs]
      show duplicateNetblocks n.netblocks = [("192.0.2.0/24", 2)]
      rw [hnb]
      decide

theorem C6_witness :
    totalIPv4Count ["203.0.113.0/24"] =
      some ((jsSetList ["203.0.113.0/24"]).map
        (fun nb => jsPow2 (32 - (specPrefixLen nb : Int)))).sum :=
  C6_ipv4_address_totals.1 ["203.0.113.0/24"] (by decide)

set_option maxRecDepth 4000 in
/-- C7 (amended): `checkSPF` calls the resolver with a fresh context (void
count 0, no warnings, no errors), an empty visited set and depth 0; when a
root node is produced the result object does carry the final shared-context
errors, warnings and void-lookup count (the copies on the node equal the
final context), but when resolution of the root fails the caller receives only
the generic "SPF record not found" failure message — the accumulated
diagnostics are not delivered, contrary to the original claim. -/
theorem C7_root_entry_reporting :
    (∀ (oracle : Oracle) (domain : String),
        parseSPFTree oracle domain = parseSPFTreeF 12 oracle domain 0 [] initContext) ∧
    initContext.voidLookups = 0 ∧ initContext.warnings = [] ∧ initContext.errors = [] ∧
    (∀ (o : Oracle) (d : String) (tree : Node) (ctx' : Context),
        (jsTrim d == "") = false → parseSPFTree o (jsTrim d) = (some tree, ctx') →
        checkSPF o d =
          CheckOutcome.success tree tree.dnsLookups (jsSetList tree.netblocks).length
            (totalIPv4Count tree.netblocks) (duplicateNetblocks tree.netblocks)
            ctx'.warnings ctx'.errors ctx'.voidLookups) ∧
    (∀ (o : Oracle) (d : String) (ctx' : Context),
        (jsTrim d == "") = false → parseSPFTree o (jsTrim d) = (none, ctx') →
        checkSPF o d = CheckOutcome.failure "SPF 레코드를 찾을 수 없습니다.") ∧
    (tree7.warnings = [nxdomainMsg "miss7.example"] ∧ tree7.errors = [] ∧
     tree7.voidLookups = 1 ∧ (parseSPFTree oracleC7ok "ok7.example").1.isSome = true) := by
  exact ⟨fun _ _ => rfl, rfl, rfl, rfl, checkSPF_success_eq, checkSPF_failure_eq,
    by decide, by decide, by decide, by decide⟩

set_option maxRecDepth 4000 in
set_option maxHeartbeats 1600000 in
theorem C7_witness :
    checkSPF oracleC7ok "ok7.example" =
      CheckOutcome.success tree7 tree7.dnsLookups (jsSetList tree7.netblocks).length
        (totalIPv4Count tree7.netblocks) (duplicateNetblocks tree7.netblocks)
        ctx7.warnings ctx7.errors ctx7.voidLookups :=
  C7_root_entry_reporting.2.2.2.2.1 oracleC7ok "ok7.example" tree7 ctx7 (by decide) (by rfl)

set_option maxRecDepth 4000 in
/-- C7 counterexample to the original claim: with two SPF records at the
root, the resolver accumulates the PermError in the shared context and
returns `nil`, but `checkSPF` hands the caller only the generic
"SPF 레코드를 찾을 수 없습니다." failure — the result carries no errors, no
warnings and no void-lookup count. -/
theorem C7_counterexample :
    (parseSPFTree oracleC7multi "r7.example").1.isNone = true ∧
    (parseSPFTree oracleC7multi "r7.example").2.errors = [multipleSpfMsg "r7.example"] ∧
    (checkSPF oracleC7multi "r7.example").message = some "SPF 레코드를 찾을 수 없습니다." ∧
    (checkSPF oracleC7multi "r7.example").errorsOut = [] ∧
    (checkSPF oracleC7multi "r7.example").isSuccess = false := by
  exact ⟨by decide, by decide, by decide, by decide, by decide⟩
